import Mathlib

/-!
Solr seeder (`app/cmd/main.go`): embedding and verified properties

The Go program generates random `User` and `Movie` records and posts them in
batches to Solr's JSON update endpoint.  This file embeds its functions as Lean
definitions and proves properties of batch partitioning, error handling, the
record generators, URL construction and the JSON field names.

Conventions of the embedding

* Go's `int` is 64-bit.  Every integer the program computes stays below
  `1_001_000`, so integers are unbounded (`Int` for record fields, `Nat` for
  loop counters, which start at `0` and only grow).
* A Go run-time panic (slice index out of range, integer division by zero) is
  an explicit result: `none` for the generators, `Stop.panicked` for a loop.
* `rand.Intn(n)` returns a value in `[0, n)`: its outcome is a `Fin n`.
* Library calls (`json.Marshal`, `http.NewRequestWithContext`, the transport)
  are outcomes supplied by an `Exchange`.  `http.Client.Do` is modelled with the
  redirect following of a default client (`clientDo`), so the number of
  requests an upload puts on the transport is computed, not assumed.
* Floating-point values are carried symbolically (`GoFloat`); nothing is proved
  about their numeric value.
* The outer batch loop does not terminate for `batchSize = 0`; loops therefore
  take fuel and report `Stop.outOfFuel` when it is used up.
-/

namespace SolrSeeder

/-! ## Data model -/

/-- Symbolic floating-point value: a draw of `rand.Float64()` / `rand.Float32()`
(identified by its raw bits), a literal, or arithmetic over them. -/
inductive GoFloat where
  | rand (bits : Nat)
  | lit (n : Nat)
  | mul (a b : GoFloat)
  | add (a b : GoFloat)
  deriving DecidableEq, Repr

/-- The `User` struct. -/
structure User where
  ID : Int
  Username : String
  Email : String
  Age : Int
  Active : Bool
  Balance : GoFloat
  deriving DecidableEq, Repr

/-- The `Movie` struct. -/
structure Movie where
  ID : Int
  Title : String
  Director : String
  ReleaseYear : Int
  Genre : String
  Rating : GoFloat
  IsAvailable : Bool
  Duration : GoFloat
  deriving DecidableEq, Repr

/-- A JSON scalar as `encoding/json` renders a struct field: Go `int` gives
`number`, `string` gives `string`, `bool` gives `bool`, `float32`/`float64`
give `float`. -/
inductive JSONValue where
  | number (i : Int)
  | string (s : String)
  | bool (b : Bool)
  | float (f : GoFloat)
  deriving DecidableEq, Repr

/-- JSON object of a `User`: one member per struct field, in declaration order,
keyed by the field's `json:"..."` tag. -/
def User.toJSON (u : User) : List (String × JSONValue) :=
  [ ("id", .number u.ID),
    ("username_s", .string u.Username),
    ("email_s", .string u.Email),
    ("age_i", .number u.Age),
    ("active_b", .bool u.Active),
    ("balance_f", .float u.Balance) ]

/-- JSON object of a `Movie`: one member per struct field, in declaration order,
keyed by the field's `json:"..."` tag. -/
def Movie.toJSON (m : Movie) : List (String × JSONValue) :=
  [ ("id", .number m.ID),
    ("title_s", .string m.Title),
    ("director_s", .string m.Director),
    ("release_year_i", .number m.ReleaseYear),
    ("genre_s", .string m.Genre),
    ("rating_f", .float m.Rating),
    ("is_available_b", .bool m.IsAvailable),
    ("duration_f", .float m.Duration) ]

/-- Type-hint marker the specification attaches to each field type:
`_s` string, `_i` integer, `_f` floating point, `_b` boolean. -/
def typeHint : JSONValue → String
  | .number _ => "_i"
  | .string _ => "_s"
  | .bool _ => "_b"
  | .float _ => "_f"

/-- The key `key` ends in `suffix`. -/
def endsIn (key suffix : String) : Prop := suffix.data <:+ key.data

instance (key suffix : String) : Decidable (endsIn key suffix) := by
  unfold endsIn; infer_instance

/-- A JSON member whose key ends in the type hint of its value. -/
def Hinted (kv : String × JSONValue) : Prop := endsIn kv.1 (typeHint kv.2)

instance (kv : String × JSONValue) : Decidable (Hinted kv) := by
  unfold Hinted; infer_instance

/-! ## Record generators -/

/-- Go slice indexing `xs[i]`; `none` is the index-out-of-range panic. -/
def index (xs : List String) (i : Int) : Option String :=
  if 0 ≤ i ∧ i < xs.length then xs.get? i.toNat else none

def usernames : List String :=
  ["alice", "bob", "charlie", "dave", "eve", "frank", "grace", "heidi"]

def domains : List String := ["example.com", "mail.com", "test.org", "demo.net"]

def titles : List String :=
  ["The Example", "Another Film", "Go Adventure", "Mystery Night", "Comedy Hour",
   "Sci-Fi Saga", "Drama Days", "Action Blast"]

def directors : List String :=
  ["Jane Doe", "John Smith", "Alex Lee", "Sam Kim", "Morgan Yu", "Chris Ray"]

def genres : List String := ["Drama", "Comedy", "Action", "Sci-Fi", "Horror", "Romance"]

/-- Outcomes of the six calls `randomUser` makes on the random source, in
program order.  `rand.Intn(n)` yields `0 ≤ r < n`, hence `Fin n`. -/
structure UserDraws where
  username : Fin 8
  domain : Fin 4
  age : Fin 60
  balance : Nat
  active : Fin 2
  id : Fin 1000000

/-- Outcomes of the eight calls `randomMovie` makes on the random source, in
program order. -/
structure MovieDraws where
  title : Fin 8
  director : Fin 6
  genre : Fin 6
  year : Fin 41
  rating : Nat
  available : Fin 2
  duration : Nat
  id : Fin 1000000

/-- The call `fmt.Sprintf("%s%d@%s", username, id, domain)`. -/
def sprintfEmail (username : String) (id : Int) (domain : String) : String :=
  username ++ toString id ++ "@" ++ domain

/-- Function `randomUser`, over the random outcomes it consumes. -/
def randomUser (d : UserDraws) : Option User := do
  let username ← index usernames (d.username.val : Int)
  let domain ← index domains (d.domain.val : Int)
  let age : Int := (d.age.val : Int) + 18
  let balance := GoFloat.mul (.rand d.balance) (.lit 1000)
  let active := decide ((d.active.val : Int) = 1)
  let id : Int := (d.id.val : Int)
  pure
    { ID := id
      Username := username
      Email := sprintfEmail username id domain
      Age := age
      Active := active
      Balance := balance }

/-- Function `randomMovie`, over the random outcomes it consumes. -/
def randomMovie (d : MovieDraws) : Option Movie := do
  let title ← index titles (d.title.val : Int)
  let director ← index directors (d.director.val : Int)
  let genre ← index genres (d.genre.val : Int)
  let year : Int := (d.year.val : Int) + 1985
  let rating := GoFloat.add (.mul (.rand d.rating) (.lit 4)) (.lit 5)
  let available := decide ((d.available.val : Int) = 1)
  let duration := GoFloat.add (.mul (.rand d.duration) (.lit 60)) (.lit 60)
  let id : Int := (d.id.val : Int)
  pure
    { ID := id
      Title := title
      Director := director
      ReleaseYear := year
      Genre := genre
      Rating := rating
      IsAvailable := available
      Duration := duration }

/-! ## Batch uploader -/

/-- The `Location` header of a response as the HTTP client reads it: missing,
not parseable against the request URL, or naming a target. -/
inductive LocationHeader where
  | absent
  | invalid (msg : String)
  | target (url : String)
  deriving DecidableEq, Repr

/-- The part of `http.Response` that `postToSolr` and the HTTP client read. -/
structure Response where
  StatusCode : Int
  Status : String
  Location : LocationHeader
  deriving DecidableEq, Repr

/-- What `postToSolr` hands to `client.Do`: the method, the URL string and the
body given to `http.NewRequestWithContext`, the `Content-Type` header set on the
request, and the client's `Timeout` in seconds.  `rawURL` is the string as
formatted; the library parses and escapes it before anything is sent. -/
structure HTTPRequest where
  method : String
  rawURL : String
  contentType : String
  timeoutSeconds : Nat
  body : String
  deriving DecidableEq, Repr

/-- Outcomes of the fallible library calls of one `postToSolr` invocation:
`json.Marshal(docs)` gives the body or an error, `http.NewRequestWithContext`
(method, URL, body) gives an error or none, and `roundTrip req n` is what the
transport answers to the `n`-th request the client sends while serving
`client.Do(req)`: a response or a transport error. -/
structure Exchange (δ : Type) where
  marshal : δ → Except String String
  newRequest : String → String → String → Option String
  roundTrip : HTTPRequest → Nat → Except String Response

/-- What `client.Do` returned and how many requests it put on the transport. -/
structure ClientResult where
  outcome : Except String Response
  roundTrips : Nat

/-- Status codes that `net/http` treats as redirects to follow. -/
def isRedirect (status : Int) : Bool :=
  decide (status = 301 ∨ status = 302 ∨ status = 303 ∨ status = 307 ∨ status = 308)

/-- Behaviour of `http.Client.Do` for a client without `CheckRedirect`, as
`net/http` documents it (library code, outside this repository): the request is
sent; a transport error ends the call with that error; a response that is not
a redirect, or a redirect without `Location`, is returned; a redirect whose
`Location` does not parse ends the call with an error; otherwise the redirect
is followed, unless 10 requests have been sent already, which ends the call
with an error.  `left` counts the requests the redirect policy still allows and
`n` those sent so far; a call starts at `left = 10`, `n = 0`.  The request body
can be replayed (`bytes.Reader`), so 307 and 308 are followed too.  The texts
of the two errors the client raises itself stand for the library's, whose
`url.Error` wrapping is left out. -/
def clientDo (roundTrip : Nat → Except String Response) : Nat → Nat → ClientResult
  | 0, n => { outcome := .error "stopped after 10 redirects", roundTrips := n }
  | left + 1, n =>
    match roundTrip n with
    | .error e => { outcome := .error e, roundTrips := n + 1 }
    | .ok resp =>
      if isRedirect resp.StatusCode then
        match resp.Location with
        | .absent => { outcome := .ok resp, roundTrips := n + 1 }
        | .invalid msg =>
          { outcome := .error ("failed to parse Location header: " ++ msg),
            roundTrips := n + 1 }
        | .target _ => clientDo roundTrip left (n + 1)
      else
        { outcome := .ok resp, roundTrips := n + 1 }

/-- What one `postToSolr` invocation did: the error it returned (`none` is Go's
`nil`) and the number of requests its `client.Do` call put on the transport. -/
structure PostResult where
  err : Option String
  roundTrips : Nat
  deriving DecidableEq, Repr

/-- The call `fmt.Sprintf("%s/solr/%s/update?commit=true", solrURL, collection)`. -/
def solrUpdateURL (solrURL collection : String) : String :=
  solrURL ++ "/solr/" ++ collection ++ "/update?commit=true"

/-- Function `postToSolr`: build the URL, marshal, build the request, call
`client.Do` once, check the status of the response it returns. -/
def postToSolr {δ : Type} (solrURL collection : String) (docs : δ) (x : Exchange δ) :
    PostResult :=
  let url := solrUpdateURL solrURL collection
  match x.marshal docs with
  | .error e => { err := some ("marshal docs: " ++ e), roundTrips := 0 }
  | .ok b =>
    match x.newRequest "POST" url b with
    | some e => { err := some ("create request: " ++ e), roundTrips := 0 }
    | none =>
      let req : HTTPRequest :=
        { method := "POST", rawURL := url, contentType := "application/json",
          timeoutSeconds := 10, body := b }
      let r := clientDo (x.roundTrip req) 10 0
      match r.outcome with
      | .error e => { err := some ("do request: " ++ e), roundTrips := r.roundTrips }
      | .ok resp =>
        if resp.StatusCode < 200 ∨ resp.StatusCode ≥ 300 then
          { err := some ("solr returned status " ++ resp.Status),
            roundTrips := r.roundTrips }
        else
          { err := none, roundTrips := r.roundTrips }

/-! ## Orchestrator -/

inductive Level where
  | info
  | error
  deriving DecidableEq, Repr

inductive LogValue where
  | str (s : String)
  | int (n : Int)
  | err (msg : String)
  deriving DecidableEq, Repr

/-- One structured log record: level, message, key-value attributes. -/
structure LogLine where
  level : Level
  msg : String
  attrs : List (String × LogValue)
  deriving DecidableEq, Repr

/-- How a loop stopped. -/
inductive Stop where
  | finished
  | panicked
  | outOfFuel
  deriving DecidableEq, Repr

/-- One invocation of the uploader by a kind's loop: the loop variable `i`
(batch start offset), the collection, the batch passed, and what the call did. -/
structure UploadCall (α : Type) where
  start : Nat
  collection : String
  batch : List α
  result : PostResult

/-- State of a kind's goroutine: its view of the random source, the uploader
calls made so far and the log records emitted so far (both oldest first). -/
structure LoopState (ρ α : Type) where
  rng : ρ
  calls : List (UploadCall α)
  logs : List LogLine

/-- What distinguishes the two goroutines: the generator, the collection name
and the three log messages. -/
structure Kind (ρ α : Type) where
  gen : ρ → Option (α × ρ)
  collection : String
  failMsg : String
  progressMsg : String
  doneMsg : String

/-- The record of `logger.ErrorContext(ctx, failMsg, "error", err, "batch_start", i)`. -/
def Kind.failLog {ρ α : Type} (k : Kind ρ α) (err : String) (i : Nat) : LogLine :=
  { level := .error, msg := k.failMsg,
    attrs := [("error", .err err), ("batch_start", .int i)] }

/-- The record of
`logger.InfoContext(ctx, progressMsg, "batch_start", i, "batch_size", len(batch))`. -/
def Kind.progressLog {ρ α : Type} (k : Kind ρ α) (i len : Nat) : LogLine :=
  { level := .info, msg := k.progressMsg,
    attrs := [("batch_start", .int i), ("batch_size", .int len)] }

/-- The record of `logger.InfoContext(ctx, doneMsg)`. -/
def Kind.doneLog {ρ α : Type} (k : Kind ρ α) : LogLine :=
  { level := .info, msg := k.doneMsg, attrs := [] }

/-- Inner loop `for j := 0; j < batchSize && i+j < total; j++ { batch = append(batch, gen()) }`,
entered at `j` with the batch built so far. -/
def fillBatch {ρ α : Type} (gen : ρ → Option (α × ρ)) (batchSize total i : Nat) :
    Nat → Nat → List α → ρ → Except Stop (List α × ρ)
  | 0, _, _, _ => .error .outOfFuel
  | fuel + 1, j, batch, rng =>
    if j < batchSize ∧ i + j < total then
      match gen rng with
      | none => .error .panicked
      | some (x, rng') => fillBatch gen batchSize total i fuel (j + 1) (batch ++ [x]) rng'
    else
      .ok (batch, rng)

/-- Outer loop `for i := 0; i < total; i += batchSize { ... }` followed by the
completion log, entered at `i`.  `world n` holds the outcomes of the goroutine's
`n`-th uploader call.  Evaluating `(i/batchSize)%10` with `batchSize = 0` is Go's
integer-divide-by-zero panic; it is reached only after a successful upload. -/
def seedLoop {ρ α : Type} (k : Kind ρ α) (solrURL : String)
    (world : Nat → Exchange (List α)) (total batchSize innerFuel : Nat) :
    Nat → Nat → LoopState ρ α → LoopState ρ α × Stop
  | 0, _, st => (st, .outOfFuel)
  | fuel + 1, i, st =>
    if i < total then
      match fillBatch k.gen batchSize total i innerFuel 0 [] st.rng with
      | .error e => (st, e)
      | .ok (batch, rng) =>
        let res := postToSolr solrURL k.collection batch (world st.calls.length)
        let calls := st.calls ++
          [{ start := i, collection := k.collection, batch := batch, result := res }]
        match res.err with
        | some err =>
          seedLoop k solrURL world total batchSize innerFuel fuel (i + batchSize)
            { rng := rng, calls := calls, logs := st.logs ++ [k.failLog err i] }
        | none =>
          if batchSize = 0 then
            ({ rng := rng, calls := calls, logs := st.logs }, .panicked)
          else if (i / batchSize) % 10 = 0 then
            seedLoop k solrURL world total batchSize innerFuel fuel (i + batchSize)
              { rng := rng, calls := calls,
                logs := st.logs ++ [k.progressLog i batch.length] }
          else
            seedLoop k solrURL world total batchSize innerFuel fuel (i + batchSize)
              { rng := rng, calls := calls, logs := st.logs }
    else
      ({ st with logs := st.logs ++ [k.doneLog] }, .finished)

/-- Body of a kind's goroutine: the loop from `i = 0` with nothing done yet. -/
def seedKind {ρ α : Type} (k : Kind ρ α) (solrURL : String)
    (world : Nat → Exchange (List α)) (total batchSize fuel : Nat) (rng : ρ) :
    LoopState ρ α × Stop :=
  seedLoop k solrURL world total batchSize fuel fuel 0 { rng := rng, calls := [], logs := [] }

/-- The users goroutine: `draws n` are the random outcomes of its `n`-th
`randomUser()` call. -/
def userKind (draws : Nat → UserDraws) : Kind Nat User where
  gen := fun n => (randomUser (draws n)).map (fun u => (u, n + 1))
  collection := "users"
  failMsg := "failed to post user batch"
  progressMsg := "seeded user batch"
  doneMsg := "finished seeding users"

/-- The movies goroutine: `draws n` are the random outcomes of its `n`-th
`randomMovie()` call. -/
def movieKind (draws : Nat → MovieDraws) : Kind Nat Movie where
  gen := fun n => (randomMovie (draws n)).map (fun m => (m, n + 1))
  collection := "movies"
  failMsg := "failed to post movie batch"
  progressMsg := "seeded movie batch"
  doneMsg := "finished seeding movies"

def totalUsers : Nat := 1000000
def totalMovies : Nat := 1000000
def batchSize : Nat := 1000

/-- Everything outside the program that a run depends on: the value of
`SOLR_MASTER_URL` (empty when unset), and per goroutine the random outcomes of
each generator call and the outcomes of each uploader call. -/
structure World where
  solrMasterURL : String
  userDraws : Nat → UserDraws
  movieDraws : Nat → MovieDraws
  userPosts : Nat → Exchange (List User)
  moviePosts : Nat → Exchange (List Movie)

/-- Observable result of a run of `main`: the exit status (`none` when fuel ran
out before the process ended), the main goroutine's log records, and each
goroutine's final state (`none` when it was never started). -/
structure ProcessResult where
  exitStatus : Option Nat
  logs : List LogLine
  users : Option (LoopState Nat User × Stop)
  movies : Option (LoopState Nat Movie × Stop)

/-- Function `main`.  The two goroutines share no state, so each is run on its own view
of the world; an unrecovered panic in either ends the process with status 2. -/
def main (fuel : Nat) (w : World) : ProcessResult :=
  let solrURL := w.solrMasterURL
  if solrURL = "" then
    { exitStatus := some 1
      logs := [{ level := .error, msg := "SOLR_MASTER_URL is not set", attrs := [] }]
      users := none
      movies := none }
  else
    let started : LogLine :=
      { level := .info, msg := "starting seeding", attrs := [("solr_master", .str solrURL)] }
    let u := seedKind (userKind w.userDraws) solrURL w.userPosts totalUsers batchSize fuel 0
    let m := seedKind (movieKind w.movieDraws) solrURL w.moviePosts totalMovies batchSize fuel 0
    if u.2 = .finished ∧ m.2 = .finished then
      { exitStatus := some 0
        logs := [started, { level := .info, msg := "seeding complete, exiting", attrs := [] }]
        users := some u
        movies := some m }
    else if u.2 = .panicked ∨ m.2 = .panicked then
      { exitStatus := some 2, logs := [started], users := some u, movies := some m }
    else
      { exitStatus := none, logs := [started], users := some u, movies := some m }

/-- Uploader calls made by a run, per goroutine. -/
def ProcessResult.userCalls (r : ProcessResult) : List (UploadCall User) :=
  match r.users with
  | none => []
  | some (st, _) => st.calls

def ProcessResult.movieCalls (r : ProcessResult) : List (UploadCall Movie) :=
  match r.movies with
  | none => []
  | some (st, _) => st.calls

/-! ## Trace observations -/

/-- Start offsets of the uploader calls, in call order. -/
def starts {α : Type} (calls : List (UploadCall α)) : List Nat := calls.map (·.start)

/-- Sizes of the batches passed to the uploader, in call order. -/
def sizes {α : Type} (calls : List (UploadCall α)) : List Nat := calls.map (·.batch.length)

/-- Number of batches of a partition: `ceil(total / batchSize)`. -/
def numBatches (total batchSize : Nat) : Nat := (total + batchSize - 1) / batchSize

/-- The log records a loop emits for one uploader call. -/
def callLogs {ρ α : Type} (k : Kind ρ α) (batchSize : Nat) (c : UploadCall α) : List LogLine :=
  match c.result.err with
  | some err => [k.failLog err c.start]
  | none => if (c.start / batchSize) % 10 = 0 then [k.progressLog c.start c.batch.length] else []

/-- A generator that never panics. -/
def Total {ρ α : Type} (gen : ρ → Option (α × ρ)) : Prop :=
  ∀ s, ∃ a s', gen s = some (a, s')

/-- The uploader calls a loop makes from offset `i` on, the first of them being
the goroutine's `n`-th: each starts where the previous batch ended, carries
`min batchSize (total - i)` records and holds the result of `postToSolr` on the
`n`-th outcomes; the calls end when the offset reaches `total`. -/
def TraceFrom {ρ α : Type} (k : Kind ρ α) (solrURL : String)
    (world : Nat → Exchange (List α)) (total batchSize : Nat) :
    Nat → Nat → List (UploadCall α) → Prop
  | i, _, [] => total ≤ i
  | i, n, c :: cs =>
    i < total ∧ c.start = i ∧ c.collection = k.collection ∧
    c.batch.length = min batchSize (total - i) ∧
    c.result = postToSolr solrURL k.collection c.batch (world n) ∧
    TraceFrom k solrURL world total batchSize (i + batchSize) (n + 1) cs

/-- The error-level records of a log: the per-batch failure logs. -/
def failureLogs (logs : List LogLine) : List LogLine :=
  logs.filter (fun l => decide (l.level = .error))

/-- The progress records of a kind in a log. -/
def progressLogs {ρ α : Type} (k : Kind ρ α) (logs : List LogLine) : List LogLine :=
  logs.filter (fun l => decide (l.level = .info ∧ l.msg = k.progressMsg))

/-- Sizes that partition `total` into batches of `b`: they sum to `total`, each
is between `1` and `b`, and all but possibly the last equal `b`. -/
def Partition (total b : Nat) (sz : List Nat) : Prop :=
  sz.sum = total ∧ (∀ s ∈ sz, 0 < s ∧ s ≤ b) ∧
  sz.dropLast = List.replicate (sz.length - 1) b

/-- The progress records the specification describes: one for every batch whose
zero-based index is a multiple of 10, whatever the upload's outcome. -/
def progressEveryTenth {ρ α : Type} (k : Kind ρ α) (total b : Nat) : List LogLine :=
  ((List.range (numBatches total b)).filter (fun j => decide (j % 10 = 0))).map
    (fun j =>
      ({ level := .info, msg := k.progressMsg,
         attrs := [("batch_start", .int (j * b : Nat)),
                   ("batch_size", .int (min b (total - j * b) : Nat))] } : LogLine))

/-- What a finished loop state must satisfy for the uploader to have been called
once per batch: `ceil(total / b)` calls, the `j`-th at offset `j * b` (so offsets
strictly increase), each holding the result of `postToSolr` on the `j`-th
outcomes; one failure record per failed call, in call order, which is the
error-level record with the kind's failure message, the call's error under
`error` and the call's start offset under `batch_start`; and as many failure
records as batches when every upload fails. -/
def UploadsOncePerBatch {ρ α : Type} (k : Kind ρ α) (solrURL : String)
    (world : Nat → Exchange (List α)) (total b : Nat) (st : LoopState ρ α) : Prop :=
  st.calls.length = numBatches total b ∧
  starts st.calls = (List.range (numBatches total b)).map (fun j => j * b) ∧
  List.Pairwise (fun x y => x < y) (starts st.calls) ∧
  (∀ (j : Nat) (h : j < st.calls.length),
    st.calls[j].collection = k.collection ∧
    st.calls[j].result = postToSolr solrURL k.collection st.calls[j].batch (world j)) ∧
  failureLogs st.logs =
    st.calls.filterMap (fun c => c.result.err.map (fun e =>
      ({ level := .error, msg := k.failMsg,
         attrs := [("error", .err e), ("batch_start", .int (c.start : Nat))] } : LogLine))) ∧
  ((∀ n docs, (postToSolr solrURL k.collection docs (world n)).err ≠ none) →
    (failureLogs st.logs).length = numBatches total b)

/-- What a finished loop state satisfies regarding progress records: there is
one for exactly the calls whose zero-based index `j` is a multiple of 10 and
whose upload returned no error, in call order, each the info-level record with
the kind's progress message, `j * b` under `batch_start` and the batch size
`min b (total - j * b)` under `batch_size`; the `j`-th call is the batch at offset
`j * b` of that size, with the result of `postToSolr` on the `j`-th outcomes. -/
def ProgressOnSuccess {ρ α : Type} (k : Kind ρ α) (solrURL : String)
    (world : Nat → Exchange (List α)) (total b : Nat) (st : LoopState ρ α) : Prop :=
  progressLogs k st.logs =
    ((st.calls.enum).filter (fun p => decide (p.1 % 10 = 0 ∧ p.2.result.err = none))).map
      (fun p =>
        ({ level := .info, msg := k.progressMsg,
           attrs := [("batch_start", .int (p.1 * b : Nat)),
                     ("batch_size", .int (min b (total - p.1 * b) : Nat))] } : LogLine)) ∧
  st.calls.length = numBatches total b ∧
  starts st.calls = (List.range (numBatches total b)).map (fun j => j * b) ∧
  sizes st.calls = (List.range (numBatches total b)).map (fun j => min b (total - j * b)) ∧
  (∀ (j : Nat) (h : j < st.calls.length),
    st.calls[j].result = postToSolr solrURL k.collection st.calls[j].batch (world j))

/-- A world in which every uploader call succeeds with HTTP 200. -/
def okExchange (δ : Type) : Exchange δ where
  marshal := fun _ => .ok "[]"
  newRequest := fun _ _ _ => none
  roundTrip := fun _ _ => .ok { StatusCode := 200, Status := "200 OK", Location := .absent }

/-- A world in which the endpoint answers every request with HTTP 500. -/
def http500 (δ : Type) : Exchange δ where
  marshal := fun _ => .ok "[]"
  newRequest := fun _ _ _ => none
  roundTrip := fun _ _ =>
    .ok { StatusCode := 500, Status := "500 Internal Server Error", Location := .absent }

/-- A world in which the endpoint is unreachable. -/
def unreachable (δ : Type) : Exchange δ where
  marshal := fun _ => .ok "[]"
  newRequest := fun _ _ _ => none
  roundTrip := fun _ _ => .error "dial tcp: connection refused"

/-- A world in which the endpoint answers the first request with a 307 redirect
to another node and the second with HTTP 200. -/
def redirectOnce (δ : Type) : Exchange δ where
  marshal := fun _ => .ok "[]"
  newRequest := fun _ _ _ => none
  roundTrip := fun _ n =>
    if n = 0 then
      .ok { StatusCode := 307, Status := "307 Temporary Redirect",
            Location := .target "http://solr-2:8983/solr/users/update?commit=true" }
    else
      .ok { StatusCode := 200, Status := "200 OK", Location := .absent }

/-- A world in which the endpoint answers every request with a 307 redirect. -/
def redirectForever (δ : Type) : Exchange δ where
  marshal := fun _ => .ok "[]"
  newRequest := fun _ _ _ => none
  roundTrip := fun _ _ =>
    .ok { StatusCode := 307, Status := "307 Temporary Redirect",
          Location := .target "http://solr:8983/solr/users/update?commit=true" }

def zeroUserDraws : UserDraws := ⟨0, 0, 0, 0, 0, 0⟩
def zeroMovieDraws : MovieDraws := ⟨0, 0, 0, 0, 0, 0, 0, 0⟩

end SolrSeeder

namespace SolrSeeder

/-! ## Generators: helper lemmas -/

theorem index_fin (xs : List String) (n : Nat) (i : Fin n) (h : n = xs.length) :
    ∃ s ∈ xs, index xs (i.val : Int) = some s := by
  have hi : i.val < xs.length := h ▸ i.isLt
  refine ⟨xs.get ⟨i.val, hi⟩, List.get_mem _ _ _, ?_⟩
  unfold index
  have h1 : (0 : Int) ≤ (i.val : Int) ∧ ((i.val : Int)) < (xs.length : Int) :=
    ⟨Int.ofNat_nonneg _, by exact_mod_cast hi⟩
  rw [if_pos h1]
  simp [List.get?_eq_get hi]

/-- Closed form of `randomUser`: it never panics and every field is determined
by the draws. -/
theorem randomUser_eq (d : UserDraws) :
    ∃ name ∈ usernames, ∃ dom ∈ domains,
      randomUser d = some
        { ID := (d.id.val : Int)
          Username := name
          Email := name ++ toString (d.id.val : Int) ++ "@" ++ dom
          Age := (d.age.val : Int) + 18
          Active := decide ((d.active.val : Int) = 1)
          Balance := .mul (.rand d.balance) (.lit 1000) } := by
  obtain ⟨name, hn, e1⟩ := index_fin usernames 8 d.username rfl
  obtain ⟨dom, hd, e2⟩ := index_fin domains 4 d.domain rfl
  refine ⟨name, hn, dom, hd, ?_⟩
  simp [randomUser, e1, e2, sprintfEmail]

/-- Closed form of `randomMovie`: it never panics and every field is determined
by the draws. -/
theorem randomMovie_eq (d : MovieDraws) :
    ∃ t ∈ titles, ∃ dir ∈ directors, ∃ g ∈ genres,
      randomMovie d = some
        { ID := (d.id.val : Int)
          Title := t
          Director := dir
          ReleaseYear := (d.year.val : Int) + 1985
          Genre := g
          Rating := .add (.mul (.rand d.rating) (.lit 4)) (.lit 5)
          IsAvailable := decide ((d.available.val : Int) = 1)
          Duration := .add (.mul (.rand d.duration) (.lit 60)) (.lit 60) } := by
  obtain ⟨t, ht, e1⟩ := index_fin titles 8 d.title rfl
  obtain ⟨dir, hd, e2⟩ := index_fin directors 6 d.director rfl
  obtain ⟨g, hg, e3⟩ := index_fin genres 6 d.genre rfl
  refine ⟨t, ht, dir, hd, g, hg, ?_⟩
  simp [randomMovie, e1, e2, e3]

/-! ## Generators: claims -/

/-- C5: for every outcome of the random source, `randomUser` returns a user
whose `Age` lies in `[18, 77]` and whose `ID` lies in `[0, 1000000)`. -/
theorem randomUser_age_id_bounds (d : UserDraws) :
    ∃ u, randomUser d = some u ∧
      18 ≤ u.Age ∧ u.Age ≤ 77 ∧ 0 ≤ u.ID ∧ u.ID < 1000000 := by
  obtain ⟨name, _, dom, _, e⟩ := randomUser_eq d
  refine ⟨_, e, ?_, ?_, ?_, ?_⟩
  · show (18 : Int) ≤ (d.age.val : Int) + 18
    omega
  · show (d.age.val : Int) + 18 ≤ 77
    have := d.age.isLt
    omega
  · show (0 : Int) ≤ (d.id.val : Int)
    omega
  · show (d.id.val : Int) < 1000000
    have := d.id.isLt
    omega

/-- C6: for every outcome of the random source, the user's `Email` is its own
`Username`, then the decimal rendering of its own `ID`, then `@`, then a domain
of the fixed pool; and `Username` is one of the eight pool names. -/
theorem randomUser_email_shape (d : UserDraws) :
    ∃ u, randomUser d = some u ∧
      u.Username ∈ ["alice", "bob", "charlie", "dave", "eve", "frank", "grace", "heidi"] ∧
      ∃ dom ∈ ["example.com", "mail.com", "test.org", "demo.net"],
        u.Email = u.Username ++ toString u.ID ++ "@" ++ dom := by
  obtain ⟨name, hn, dom, hd, e⟩ := randomUser_eq d
  exact ⟨_, e, hn, dom, hd, rfl⟩

/-- C7: for every outcome of the random source, `randomMovie` returns a movie
(no pool index is out of range) whose `ReleaseYear` lies in `[1985, 2025]` and
whose `Title`, `Director` and `Genre` belong to their pools. -/
theorem randomMovie_year_pools (d : MovieDraws) :
    ∃ m, randomMovie d = some m ∧
      1985 ≤ m.ReleaseYear ∧ m.ReleaseYear ≤ 2025 ∧
      m.Title ∈ titles ∧ m.Director ∈ directors ∧ m.Genre ∈ genres := by
  obtain ⟨t, ht, dir, hd, g, hg, e⟩ := randomMovie_eq d
  refine ⟨_, e, ?_, ?_, ht, hd, hg⟩
  · show (1985 : Int) ≤ (d.year.val : Int) + 1985
    omega
  · show (d.year.val : Int) + 1985 ≤ 2025
    have := d.year.isLt
    omega

/-! ## Uploader: helper lemmas -/

/-- The client never puts more requests on the transport than the redirect
policy allows. -/
theorem clientDo_roundTrips_le (rt : Nat → Except String Response) :
    ∀ (left n : Nat), (clientDo rt left n).roundTrips ≤ n + left := by
  intro left
  induction left with
  | zero => intro n; simp [clientDo]
  | succ left ih =>
    intro n
    unfold clientDo
    cases h : rt n with
    | error e => simp
    | ok resp =>
      by_cases hr : isRedirect resp.StatusCode = true
      · cases hl : resp.Location with
        | absent => simp [hr, hl]
        | invalid msg => simp [hr, hl]
        | target u =>
          simp only [hr, hl, if_true]
          have := ih (n + 1)
          omega
      · simp [hr]

/-! ## Uploader: claims -/

/-- C3 (as stated, refuted): when the endpoint answers the first request with a
307 redirect and the second with 200, one `postToSolr` invocation returns `nil`
having put two requests on the transport; when it always redirects, the
invocation fails having put ten. -/
theorem postToSolr_not_single_request :
    ¬ ((postToSolr "http://solr:8983" "users" ([] : List User) (redirectOnce _)).roundTrips
        ≤ 1) ∧
    postToSolr "http://solr:8983" "users" ([] : List User) (redirectOnce _)
      = { err := none, roundTrips := 2 } ∧
    (postToSolr "http://solr:8983" "users" ([] : List User) (redirectForever _)).err ≠ none ∧
    (postToSolr "http://solr:8983" "users" ([] : List User) (redirectForever _)).roundTrips
      = 10 := by
  decide

/-- C3 (amended): `postToSolr` returns `nil` exactly when marshalling and request
construction succeed and `client.Do` returns, after following any redirects, a
response whose status code is in `[200, 300)`; in each other case it returns the
error of that case.  A failure is never retried: when the first answer of the
transport is an error, or a response whose status is not a redirect, that
request is the only one of the invocation and decides its result.  An
invocation puts at most 10 requests on the transport. -/
theorem postToSolr_nil_iff {δ : Type} (solrURL collection : String) (docs : δ)
    (x : Exchange δ) :
    ((postToSolr solrURL collection docs x).err = none ↔
      ∃ body resp,
        x.marshal docs = .ok body ∧
        x.newRequest "POST" (solrUpdateURL solrURL collection) body = none ∧
        (clientDo (x.roundTrip
          { method := "POST", rawURL := solrUpdateURL solrURL collection,
            contentType := "application/json", timeoutSeconds := 10, body := body }) 10 0).outcome
          = .ok resp ∧
        200 ≤ resp.StatusCode ∧ resp.StatusCode < 300) ∧
    (∀ e, x.marshal docs = .error e →
      postToSolr solrURL collection docs x
        = { err := some ("marshal docs: " ++ e), roundTrips := 0 }) ∧
    (∀ body e, x.marshal docs = .ok body →
      x.newRequest "POST" (solrUpdateURL solrURL collection) body = some e →
      postToSolr solrURL collection docs x
        = { err := some ("create request: " ++ e), roundTrips := 0 }) ∧
    (∀ body e, x.marshal docs = .ok body →
      x.newRequest "POST" (solrUpdateURL solrURL collection) body = none →
      x.roundTrip
        { method := "POST", rawURL := solrUpdateURL solrURL collection,
          contentType := "application/json", timeoutSeconds := 10, body := body } 0
        = .error e →
      postToSolr solrURL collection docs x
        = { err := some ("do request: " ++ e), roundTrips := 1 }) ∧
    (∀ body resp, x.marshal docs = .ok body →
      x.newRequest "POST" (solrUpdateURL solrURL collection) body = none →
      x.roundTrip
        { method := "POST", rawURL := solrUpdateURL solrURL collection,
          contentType := "application/json", timeoutSeconds := 10, body := body } 0
        = .ok resp →
      (resp.StatusCode ≠ 301 ∧ resp.StatusCode ≠ 302 ∧ resp.StatusCode ≠ 303 ∧
        resp.StatusCode ≠ 307 ∧ resp.StatusCode ≠ 308) →
      postToSolr solrURL collection docs x
        = { err := if 200 ≤ resp.StatusCode ∧ resp.StatusCode < 300 then none
                   else some ("solr returned status " ++ resp.Status),
            roundTrips := 1 }) ∧
    (∀ body e, x.marshal docs = .ok body →
      x.newRequest "POST" (solrUpdateURL solrURL collection) body = none →
      (clientDo (x.roundTrip
        { method := "POST", rawURL := solrUpdateURL solrURL collection,
          contentType := "application/json", timeoutSeconds := 10, body := body }) 10 0).outcome
        = .error e →
      (postToSolr solrURL collection docs x).err = some ("do request: " ++ e)) ∧
    (∀ body resp, x.marshal docs = .ok body →
      x.newRequest "POST" (solrUpdateURL solrURL collection) body = none →
      (clientDo (x.roundTrip
        { method := "POST", rawURL := solrUpdateURL solrURL collection,
          contentType := "application/json", timeoutSeconds := 10, body := body }) 10 0).outcome
        = .ok resp →
      (resp.StatusCode < 200 ∨ 300 ≤ resp.StatusCode) →
      (postToSolr solrURL collection docs x).err
        = some ("solr returned status " ++ resp.Status)) ∧
    (postToSolr solrURL collection docs x).roundTrips ≤ 10 := by
  refine ⟨?_, ?_, ?_, ?_, ?_, ?_, ?_, ?_⟩
  · unfold postToSolr
    cases hm : x.marshal docs with
    | error e => simp
    | ok b =>
      cases hr : x.newRequest "POST" (solrUpdateURL solrURL collection) b with
      | some e => simp [hr]
      | none =>
        cases ht : (clientDo (x.roundTrip
            { method := "POST", rawURL := solrUpdateURL solrURL collection,
              contentType := "application/json", timeoutSeconds := 10, body := b }) 10 0).outcome with
        | error e => simp [hr, ht]
        | ok resp =>
          by_cases hs : resp.StatusCode < 200 ∨ resp.StatusCode ≥ 300
          · simp only [hr, ht, hs, if_true]
            constructor
            · intro h; cases h
            · rintro ⟨body, resp', hb, -, ht', h1, h2⟩
              cases hb
              rw [ht] at ht'
              cases ht'
              omega
          · simp only [hr, ht, hs, if_false, true_iff]
            exact ⟨b, resp, rfl, hr, ht, by omega, by omega⟩
  · intro e hm
    simp [postToSolr, hm]
  · intro b e hm hr
    simp [postToSolr, hm, hr]
  · intro b e hm hr ht
    simp [postToSolr, hm, hr, clientDo, ht]
  · intro b resp hm hr ht hs
    have hred : isRedirect resp.StatusCode = false := by
      simp [isRedirect, hs.1, hs.2.1, hs.2.2.1, hs.2.2.2.1, hs.2.2.2.2]
    by_cases h2 : 200 ≤ resp.StatusCode ∧ resp.StatusCode < 300
    · have h3 : ¬ (resp.StatusCode < 200 ∨ resp.StatusCode ≥ 300) := by omega
      simp [postToSolr, hm, hr, clientDo, ht, hred, h2, h3]
    · have h3 : resp.StatusCode < 200 ∨ resp.StatusCode ≥ 300 := by omega
      simp [postToSolr, hm, hr, clientDo, ht, hred, h2, h3]
  · intro b e hm hr ht
    simp [postToSolr, hm, hr, ht]
  · intro b resp hm hr ht hs
    have hs' : resp.StatusCode < 200 ∨ resp.StatusCode ≥ 300 := hs
    simp [postToSolr, hm, hr, ht, hs']
  · unfold postToSolr
    cases hm : x.marshal docs with
    | error e => simp
    | ok b =>
      cases hr : x.newRequest "POST" (solrUpdateURL solrURL collection) b with
      | some e => simp [hr]
      | none =>
        have h1 := clientDo_roundTrips_le (x.roundTrip
          { method := "POST", rawURL := solrUpdateURL solrURL collection,
            contentType := "application/json", timeoutSeconds := 10, body := b }) 10 0
        simp only [hr]
        split
        · simpa using h1
        · split <;> simpa using h1

/-- Witness of the amended C3: an unreachable endpoint gives a failure after one
request, and so does an endpoint answering HTTP 500. -/
theorem postToSolr_nil_iff_witness :
    postToSolr "http://solr:8983" "users" ([] : List User) (unreachable _)
      = { err := some ("do request: " ++ "dial tcp: connection refused"), roundTrips := 1 } ∧
    postToSolr "http://solr:8983" "users" ([] : List User) (http500 _)
      = { err := if (200 : Int) ≤ 500 ∧ (500 : Int) < 300 then none
                 else some ("solr returned status " ++ "500 Internal Server Error"),
          roundTrips := 1 } :=
  ⟨(postToSolr_nil_iff "http://solr:8983" "users" ([] : List User) (unreachable _)).2.2.2.1
      "[]" "dial tcp: connection refused" rfl rfl rfl,
   (postToSolr_nil_iff "http://solr:8983" "users" ([] : List User) (http500 _)).2.2.2.2.1
      "[]" ⟨500, "500 Internal Server Error", .absent⟩ rfl rfl rfl (by decide)⟩

/-- C8 (as stated, refuted): for base `http://solr:8983` and collection `users`
there is no segment `P` making the URL `B/P/C?commit=true`. -/
theorem solrUpdateURL_not_base_path_collection :
    ¬ ∃ P : String,
      solrUpdateURL "http://solr:8983" "users"
        = "http://solr:8983" ++ "/" ++ P ++ "/" ++ "users" ++ "?commit=true" := by
  rintro ⟨P, h⟩
  have h2 : ("/users?commit=true" : String).data <:+
      (solrUpdateURL "http://solr:8983" "users").data := by
    rw [h]
    refine ⟨("http://solr:8983" ++ "/" ++ P).data, ?_⟩
    simp [String.data_append, List.append_assoc]
  revert h2
  decide

/-- C8 (amended): the target URL `postToSolr` builds is the base, then `/`, the
fixed segment `solr`, `/`, the collection, `/`, the fixed segment `update`, then
`?commit=true`; the collection is the last path component but one. -/
theorem postToSolr_url (solrURL collection : String) :
    solrUpdateURL solrURL collection
        = solrURL ++ "/" ++ "solr" ++ "/" ++ collection ++ "/" ++ "update" ++ "?commit=true" := by
  unfold solrUpdateURL
  apply String.ext
  simp [String.data_append, List.append_assoc]

/-! ## JSON field names: claims -/

/-- C9 (as stated, refuted): the `ID` field of a user and of a movie is an
integer field whose key `id` does not end in `_i`. -/
theorem toJSON_id_not_hinted :
    (¬ ∀ kv ∈ User.toJSON ⟨7, "alice", "alice7@mail.com", 30, true, .lit 0⟩, Hinted kv) ∧
    (¬ ∀ kv ∈ Movie.toJSON ⟨7, "Go Adventure", "Sam Kim", 1999, "Drama", .lit 5, true, .lit 60⟩,
        Hinted kv) := by
  decide

/-- C9 (amended): in the JSON object of a user (six members) and of a movie
(eight members) the `ID` field is keyed `id`, without a type hint, and the key
of every other field ends in the hint of the field's type. -/
theorem toJSON_hinted_except_id (u : User) (m : Movie) :
    (User.toJSON u).map Prod.fst
        = ["id", "username_s", "email_s", "age_i", "active_b", "balance_f"] ∧
    (Movie.toJSON m).map Prod.fst
        = ["id", "title_s", "director_s", "release_year_i", "genre_s", "rating_f",
           "is_available_b", "duration_f"] ∧
    (∀ kv ∈ User.toJSON u, kv = ("id", .number u.ID) ∨ Hinted kv) ∧
    (∀ kv ∈ Movie.toJSON m, kv = ("id", .number m.ID) ∨ Hinted kv) := by
  refine ⟨rfl, rfl, ?_, ?_⟩
  · intro kv hkv
    simp only [User.toJSON, List.mem_cons, List.mem_singleton, List.not_mem_nil, or_false] at hkv
    rcases hkv with h | h | h | h | h | h <;> subst h
    · exact Or.inl rfl
    all_goals exact Or.inr (by simp only [Hinted, typeHint]; decide)
  · intro kv hkv
    simp only [Movie.toJSON, List.mem_cons, List.mem_singleton, List.not_mem_nil, or_false] at hkv
    rcases hkv with h | h | h | h | h | h | h | h <;> subst h
    · exact Or.inl rfl
    all_goals exact Or.inr (by simp only [Hinted, typeHint]; decide)

/-- Witness of the amended C9 at a concrete member. -/
theorem toJSON_hinted_except_id_witness :
    ("age_i", JSONValue.number 30) = ("id", JSONValue.number 7) ∨ Hinted ("age_i", .number 30) :=
  (toJSON_hinted_except_id ⟨7, "alice", "alice7@mail.com", 30, true, .lit 0⟩
    ⟨7, "Go Adventure", "Sam Kim", 1999, "Drama", .lit 5, true, .lit 60⟩).2.2.1
    ("age_i", .number 30) (by decide)

/-! ## Orchestrator: helper lemmas -/

theorem userKind_total (draws : Nat → UserDraws) : Total (userKind draws).gen := by
  intro s
  obtain ⟨name, _, dom, _, e⟩ := randomUser_eq (draws s)
  exact ⟨_, s + 1, by show Option.map _ (randomUser (draws s)) = _; rw [e]; rfl⟩

theorem movieKind_total (draws : Nat → MovieDraws) : Total (movieKind draws).gen := by
  intro s
  obtain ⟨t, _, dir, _, g, _, e⟩ := randomMovie_eq (draws s)
  exact ⟨_, s + 1, by show Option.map _ (randomMovie (draws s)) = _; rw [e]; rfl⟩

/-- With a generator that never panics and fuel above `batchSize - j`, the inner
loop returns, having appended `min (batchSize - j) (total - (i + j))` records. -/
theorem fillBatch_ok {ρ α : Type} (gen : ρ → Option (α × ρ)) (hgen : Total gen)
    (batchSize total i : Nat) :
    ∀ (fuel j : Nat) (batch : List α) (rng : ρ), batchSize - j < fuel →
      ∃ batch' rng', fillBatch gen batchSize total i fuel j batch rng = .ok (batch', rng') ∧
        batch'.length = batch.length + min (batchSize - j) (total - (i + j)) := by
  intro fuel
  induction fuel with
  | zero => intro j batch rng h; omega
  | succ fuel ih =>
    intro j batch rng h
    unfold fillBatch
    by_cases hc : j < batchSize ∧ i + j < total
    · obtain ⟨a, s', hg⟩ := hgen rng
      obtain ⟨batch', rng', e, hl⟩ := ih (j + 1) (batch ++ [a]) s' (by omega)
      refine ⟨batch', rng', ?_, ?_⟩
      · simp only [hc, and_self, if_true, hg, e]
      · rw [hl, List.length_append, List.length_singleton]
        omega
    · refine ⟨batch, rng, ?_, ?_⟩
      · rw [if_neg hc]
      · omega

theorem seedLoop_run {ρ α : Type} (k : Kind ρ α) (hgen : Total k.gen) (solrURL : String)
    (world : Nat → Exchange (List α)) (total batchSize innerFuel : Nat)
    (hb : 0 < batchSize) (hin : batchSize < innerFuel) :
    ∀ (fuel i : Nat) (st : LoopState ρ α), total - i < fuel →
      ∃ st' new,
        seedLoop k solrURL world total batchSize innerFuel fuel i st = (st', .finished) ∧
        st'.calls = st.calls ++ new ∧
        TraceFrom k solrURL world total batchSize i st.calls.length new ∧
        st'.logs = st.logs ++ new.flatMap (callLogs k batchSize) ++ [k.doneLog] := by
  intro fuel
  induction fuel with
  | zero => intro i st h; omega
  | succ fuel ih =>
    intro i st h
    unfold seedLoop
    by_cases hi : i < total
    · obtain ⟨batch, rng, e, hl⟩ := fillBatch_ok k.gen hgen batchSize total i innerFuel 0 [] st.rng
        (by omega)
      simp only [hi, if_true, e]
      have hlen : batch.length = min batchSize (total - i) := by
        rw [hl]; simp
      have hb0 : batchSize ≠ 0 := by omega
      let c : UploadCall α :=
        ⟨i, k.collection, batch, postToSolr solrURL k.collection batch (world st.calls.length)⟩
      cases herr : (postToSolr solrURL k.collection batch (world st.calls.length)).err with
      | some err =>
        obtain ⟨st', new, e', hc, ht, hlog⟩ := ih (i + batchSize)
          { rng := rng,
            calls := st.calls ++ [c],
            logs := st.logs ++ [k.failLog err i] } (by omega)
        refine ⟨st', c :: new, ?_, ?_, ?_, ?_⟩
        · simpa using e'
        · simpa using hc
        · refine ⟨hi, rfl, rfl, hlen, rfl, ?_⟩
          simpa using ht
        · simp [hlog, callLogs, herr]
      | none =>
        by_cases hp : (i / batchSize) % 10 = 0
        · obtain ⟨st', new, e', hc, ht, hlog⟩ := ih (i + batchSize)
            { rng := rng,
              calls := st.calls ++ [c],
              logs := st.logs ++ [k.progressLog i batch.length] } (by omega)
          refine ⟨st', c :: new, ?_, ?_, ?_, ?_⟩
          · simpa [hb0, hp] using e'
          · simpa using hc
          · refine ⟨hi, rfl, rfl, hlen, rfl, ?_⟩
            simpa using ht
          · simp [hlog, callLogs, herr, hp]
        · obtain ⟨st', new, e', hc, ht, hlog⟩ := ih (i + batchSize)
            { rng := rng,
              calls := st.calls ++ [c],
              logs := st.logs } (by omega)
          refine ⟨st', c :: new, ?_, ?_, ?_, ?_⟩
          · simpa [hb0, hp] using e'
          · simpa using hc
          · refine ⟨hi, rfl, rfl, hlen, rfl, ?_⟩
            simpa using ht
          · simp [hlog, callLogs, herr, hp]
    · refine ⟨{ st with logs := st.logs ++ [k.doneLog] }, [], ?_, ?_, ?_, ?_⟩
      · rw [if_neg hi]
      · simp
      · simp only [TraceFrom]; omega
      · simp

theorem numBatches_zero (b : Nat) (hb : 0 < b) : numBatches 0 b = 0 := by
  unfold numBatches
  exact Nat.div_eq_of_lt (by omega)

theorem numBatches_step (t b : Nat) (hb : 0 < b) (ht : 0 < t) :
    numBatches t b = numBatches (t - b) b + 1 := by
  unfold numBatches
  have h1 : t + b - 1 = (t - 1) + b := by omega
  rw [h1, Nat.add_div_right _ hb]
  congr 1
  by_cases h : b ≤ t
  · congr 1; omega
  · rw [Nat.div_eq_of_lt (by omega), Nat.div_eq_of_lt (by omega)]

section Trace

variable {ρ α : Type} (k : Kind ρ α) (solrURL : String) (world : Nat → Exchange (List α))
  (total b : Nat)

theorem TraceFrom.length_eq (hb : 0 < b) :
    ∀ (cs : List (UploadCall α)) (i n : Nat), TraceFrom k solrURL world total b i n cs →
      cs.length = numBatches (total - i) b := by
  intro cs
  induction cs with
  | nil =>
    intro i n h
    simp only [TraceFrom] at h
    rw [Nat.sub_eq_zero_of_le h, numBatches_zero b hb]; rfl
  | cons c cs ih =>
    intro i n h
    obtain ⟨hi, -, -, -, -, ht⟩ := h
    rw [List.length_cons, ih _ _ ht, numBatches_step (total - i) b hb (by omega)]
    congr 2; omega

theorem TraceFrom.starts_eq :
    ∀ (cs : List (UploadCall α)) (i n : Nat), TraceFrom k solrURL world total b i n cs →
      starts cs = (List.range cs.length).map (fun j => i + j * b) := by
  intro cs
  induction cs with
  | nil => intro i n _; rfl
  | cons c cs ih =>
    intro i n h
    obtain ⟨-, hs, -, -, -, ht⟩ := h
    have := ih _ _ ht
    unfold starts at this ⊢
    rw [List.map_cons, this, hs, List.length_cons, List.range_succ_eq_map, List.map_cons,
      List.map_map]
    simp only [Nat.zero_mul, Nat.add_zero, List.cons.injEq, true_and]
    apply List.map_congr_left
    intro j _
    simp only [Function.comp, Nat.succ_eq_add_one, Nat.add_mul, Nat.one_mul]
    omega

theorem TraceFrom.sizes_eq :
    ∀ (cs : List (UploadCall α)) (i n : Nat), TraceFrom k solrURL world total b i n cs →
      sizes cs = (List.range cs.length).map (fun j => min b (total - (i + j * b))) := by
  intro cs
  induction cs with
  | nil => intro i n _; rfl
  | cons c cs ih =>
    intro i n h
    obtain ⟨-, -, -, hl, -, ht⟩ := h
    have := ih _ _ ht
    unfold sizes at this ⊢
    rw [List.map_cons, this, hl, List.length_cons, List.range_succ_eq_map, List.map_cons,
      List.map_map]
    simp only [Nat.zero_mul, Nat.add_zero, List.cons.injEq, true_and]
    apply List.map_congr_left
    intro j _
    simp only [Function.comp, Nat.succ_eq_add_one, Nat.add_mul, Nat.one_mul]
    congr 2
    omega

theorem TraceFrom.sum_sizes :
    ∀ (cs : List (UploadCall α)) (i n : Nat), TraceFrom k solrURL world total b i n cs →
      (sizes cs).sum = total - i := by
  intro cs
  induction cs with
  | nil =>
    intro i n h
    simp only [TraceFrom] at h
    simp [sizes]; omega
  | cons c cs ih =>
    intro i n h
    obtain ⟨hi, -, -, hl, -, ht⟩ := h
    have := ih _ _ ht
    unfold sizes at this ⊢
    rw [List.map_cons, List.sum_cons, this, hl]
    omega

theorem TraceFrom.size_bounds (hb : 0 < b) :
    ∀ (cs : List (UploadCall α)) (i n : Nat), TraceFrom k solrURL world total b i n cs →
      ∀ s ∈ sizes cs, 0 < s ∧ s ≤ b := by
  intro cs
  induction cs with
  | nil => intro i n _ s hs; simp [sizes] at hs
  | cons c cs ih =>
    intro i n h s hs
    obtain ⟨hi, -, -, hl, -, ht⟩ := h
    unfold sizes at hs
    rw [List.map_cons, List.mem_cons] at hs
    rcases hs with hs | hs
    · rw [hs, hl]; omega
    · exact ih _ _ ht s hs

theorem TraceFrom.dropLast_sizes :
    ∀ (cs : List (UploadCall α)) (i n : Nat), TraceFrom k solrURL world total b i n cs →
      (sizes cs).dropLast = List.replicate (cs.length - 1) b := by
  intro cs
  induction cs with
  | nil => intro i n _; rfl
  | cons c cs ih =>
    intro i n h
    obtain ⟨hi, -, -, hl, -, ht⟩ := h
    cases cs with
    | nil => rfl
    | cons c' cs' =>
      have h2 := ih _ _ ht
      obtain ⟨hi', -⟩ := ht
      unfold sizes at h2 ⊢
      rw [List.map_cons] at h2
      rw [List.map_cons, List.map_cons, List.dropLast_cons₂, h2, hl]
      have : min b (total - i) = b := by omega
      rw [this]
      simp [List.replicate_succ]

theorem TraceFrom.result_eq :
    ∀ (cs : List (UploadCall α)) (i n : Nat), TraceFrom k solrURL world total b i n cs →
      ∀ (j : Nat) (h : j < cs.length),
        cs[j].collection = k.collection ∧
        cs[j].result = postToSolr solrURL k.collection cs[j].batch (world (n + j)) := by
  intro cs
  induction cs with
  | nil => intro i n _ j h; simp at h
  | cons c cs ih =>
    intro i n h j hj
    obtain ⟨-, -, hc, -, hr, ht⟩ := h
    cases j with
    | zero => exact ⟨hc, hr⟩
    | succ j =>
      have := ih _ _ ht j (by simpa using hj)
      simpa [Nat.add_assoc, Nat.add_comm 1 j] using this

end Trace

theorem failureLogs_trace {ρ α : Type} (k : Kind ρ α) (b : Nat) (cs : List (UploadCall α)) :
    failureLogs (cs.flatMap (callLogs k b) ++ [k.doneLog]) =
      cs.filterMap (fun c => c.result.err.map (fun e => k.failLog e c.start)) := by
  induction cs with
  | nil => simp [failureLogs, Kind.doneLog]
  | cons c cs ih =>
    unfold failureLogs at ih ⊢
    rw [List.flatMap_cons, List.append_assoc, List.filter_append, ih, List.filterMap_cons]
    unfold callLogs
    cases h : c.result.err with
    | some e => simp [Kind.failLog]
    | none =>
      by_cases hp : (c.start / b) % 10 = 0 <;> simp [hp, Kind.progressLog]

theorem progressLogs_trace {ρ α : Type} (k : Kind ρ α) (hk : k.doneMsg ≠ k.progressMsg) (b : Nat)
    (cs : List (UploadCall α)) :
    progressLogs k (cs.flatMap (callLogs k b) ++ [k.doneLog]) =
      (cs.filter (fun c => decide (c.result.err = none ∧ (c.start / b) % 10 = 0))).map
        (fun c => k.progressLog c.start c.batch.length) := by
  induction cs with
  | nil => simp [progressLogs, Kind.doneLog, hk]
  | cons c cs ih =>
    unfold progressLogs at ih ⊢
    rw [List.flatMap_cons, List.append_assoc, List.filter_append, ih, List.filter_cons]
    unfold callLogs
    cases h : c.result.err with
    | some e => simp [Kind.failLog]
    | none =>
      by_cases hp : (c.start / b) % 10 = 0 <;> simp [hp, Kind.progressLog]

/-- With a generator that never panics, positive batch size and fuel above
`total + b`, a kind's goroutine finishes; its calls form the trace from offset 0
and its log holds each call's records, in call order, then the completion record. -/
theorem seedKind_run {ρ α : Type} (k : Kind ρ α) (hgen : Total k.gen) (solrURL : String)
    (world : Nat → Exchange (List α)) (total b fuel : Nat) (rng : ρ)
    (hb : 0 < b) (hfuel : total + b < fuel) :
    ∃ st, seedKind k solrURL world total b fuel rng = (st, .finished) ∧
      TraceFrom k solrURL world total b 0 0 st.calls ∧
      st.logs = st.calls.flatMap (callLogs k b) ++ [k.doneLog] := by
  obtain ⟨st, new, e, hc, ht, hl⟩ := seedLoop_run k hgen solrURL world total b fuel hb
    (by omega) fuel 0 { rng := rng, calls := [], logs := [] } (by omega)
  refine ⟨st, e, ?_, ?_⟩
  · simp only [List.nil_append] at hc
    rw [hc]; exact ht
  · simp only [List.nil_append] at hc hl
    rw [hc]; exact hl

theorem TraceFrom.progress_enum {ρ α : Type} (k : Kind ρ α) (solrURL : String)
    (world : Nat → Exchange (List α)) (total b : Nat) (hb : 0 < b) :
    ∀ (cs : List (UploadCall α)) (n : Nat), TraceFrom k solrURL world total b (n * b) n cs →
      (cs.filter (fun c => decide (c.result.err = none ∧ (c.start / b) % 10 = 0))).map
          (fun c => k.progressLog c.start c.batch.length) =
        ((cs.enumFrom n).filter
            (fun p => decide (p.1 % 10 = 0 ∧ p.2.result.err = none))).map
          (fun p => k.progressLog (p.1 * b) (min b (total - p.1 * b))) := by
  intro cs
  induction cs with
  | nil => intro n _; rfl
  | cons c cs ih =>
    intro n h
    obtain ⟨-, hs, -, hl, -, ht⟩ := h
    have ht' : TraceFrom k solrURL world total b ((n + 1) * b) (n + 1) cs := by
      rw [Nat.add_mul, Nat.one_mul]; exact ht
    have hdiv : c.start / b = n := by
      rw [hs]; exact Nat.mul_div_cancel n hb
    rw [List.enumFrom_cons, List.filter_cons, List.filter_cons, hdiv]
    by_cases hp : n % 10 = 0 ∧ c.result.err = none
    · have hp' : c.result.err = none ∧ n % 10 = 0 := ⟨hp.2, hp.1⟩
      simp only [hp, hp', and_self, decide_True, if_true, List.map_cons, ih (n + 1) ht']
      rw [hs, hl]
    · have hp' : ¬ (c.result.err = none ∧ n % 10 = 0) := fun h => hp ⟨h.2, h.1⟩
      simp only [hp, hp', decide_False, Bool.false_eq_true, if_false, ih (n + 1) ht']

theorem starts_pairwise (n b : Nat) (hb : 0 < b) :
    List.Pairwise (· < ·) ((List.range n).map (fun j => j * b)) := by
  rw [List.pairwise_map]
  exact (List.pairwise_lt_range n).imp (fun h => Nat.mul_lt_mul_of_pos_right h hb)


theorem length_filterMap_all_failed {ρ α : Type} (k : Kind ρ α) (cs : List (UploadCall α))
    (h : ∀ c ∈ cs, ∃ e, c.result.err = some e) :
    (cs.filterMap (fun c => c.result.err.map (fun e => k.failLog e c.start))).length
      = cs.length := by
  induction cs with
  | nil => rfl
  | cons c cs ih =>
    obtain ⟨e, he⟩ := h c (List.mem_cons_self _ _)
    rw [List.filterMap_cons]
    simp only [he, Option.map_some', List.length_cons]
    rw [ih (fun c hc => h c (List.mem_cons_of_mem _ hc))]

theorem seedKind_partition {ρ α : Type} (k : Kind ρ α) (hgen : Total k.gen)
    (solrURL : String) (world : Nat → Exchange (List α)) (total b fuel : Nat) (rng : ρ)
    (hb : 0 < b) (hfuel : total + b < fuel) :
    ∃ st, seedKind k solrURL world total b fuel rng = (st, .finished) ∧
      Partition total b (sizes st.calls) ∧
      sizes st.calls = (List.range (numBatches total b)).map (fun j => min b (total - j * b)) := by
  obtain ⟨st, e, ht, -⟩ := seedKind_run k hgen solrURL world total b fuel rng hb hfuel
  refine ⟨st, e, ⟨?_, ?_, ?_⟩, ?_⟩
  · simpa using TraceFrom.sum_sizes k solrURL world total b _ _ _ ht
  · exact TraceFrom.size_bounds k solrURL world total b hb _ _ _ ht
  · have := TraceFrom.dropLast_sizes k solrURL world total b _ _ _ ht
    rw [this, sizes, List.length_map]
  · have h1 := TraceFrom.sizes_eq k solrURL world total b _ _ _ ht
    have h2 := TraceFrom.length_eq k solrURL world total b hb _ _ _ ht
    rw [h1, h2]
    simp

theorem seedKind_uploads {ρ α : Type} (k : Kind ρ α) (hgen : Total k.gen)
    (solrURL : String) (world : Nat → Exchange (List α)) (total b fuel : Nat) (rng : ρ)
    (hb : 0 < b) (hfuel : total + b < fuel) :
    ∃ st, seedKind k solrURL world total b fuel rng = (st, .finished) ∧
      UploadsOncePerBatch k solrURL world total b st := by
  obtain ⟨st, e, ht, hl⟩ := seedKind_run k hgen solrURL world total b fuel rng hb hfuel
  have hlen : st.calls.length = numBatches total b := by
    simpa using TraceFrom.length_eq k solrURL world total b hb _ _ _ ht
  have hst : starts st.calls = (List.range (numBatches total b)).map (fun j => j * b) := by
    have h1 := TraceFrom.starts_eq k solrURL world total b _ _ _ ht
    rw [h1, hlen]
    simp
  have hres := TraceFrom.result_eq k solrURL world total b _ _ _ ht
  have hfail : failureLogs st.logs =
      st.calls.filterMap (fun c => c.result.err.map (fun e => k.failLog e c.start)) := by
    rw [hl]; exact failureLogs_trace k b st.calls
  refine ⟨st, e, hlen, hst, ?_, ?_, hfail, ?_⟩
  · rw [hst]; exact starts_pairwise _ b hb
  · intro j h
    have := hres j h
    simpa using this
  · intro hall
    rw [hfail, ← hlen]
    have : ∀ c ∈ st.calls, ∃ e, c.result.err = some e := by
      intro c hc
      obtain ⟨j, hj, rfl⟩ := List.getElem_of_mem hc
      have h1 := (hres j hj).2
      have h2 := hall (0 + j) st.calls[j].batch
      rw [← h1] at h2
      cases h3 : st.calls[j].result.err with
      | none => exact absurd h3 h2
      | some e => exact ⟨e, rfl⟩
    exact length_filterMap_all_failed k st.calls this

theorem seedKind_progress {ρ α : Type} (k : Kind ρ α) (hgen : Total k.gen)
    (solrURL : String) (world : Nat → Exchange (List α)) (total b fuel : Nat) (rng : ρ)
    (hb : 0 < b) (hfuel : total + b < fuel)
    (hk : k.doneMsg ≠ k.progressMsg) :
    ∃ st, seedKind k solrURL world total b fuel rng = (st, .finished) ∧
      ProgressOnSuccess k solrURL world total b st := by
  obtain ⟨st, e, ht, hl⟩ := seedKind_run k hgen solrURL world total b fuel rng hb hfuel
  have hlen : st.calls.length = numBatches total b := by
    simpa using TraceFrom.length_eq k solrURL world total b hb _ _ _ ht
  refine ⟨st, e, ?_, hlen, ?_, ?_, ?_⟩
  · rw [hl, progressLogs_trace k hk b st.calls]
    have ht0 : TraceFrom k solrURL world total b (0 * b) 0 st.calls := by
      rw [Nat.zero_mul]; exact ht
    exact TraceFrom.progress_enum k solrURL world total b hb _ 0 ht0
  · have h1 := TraceFrom.starts_eq k solrURL world total b _ _ _ ht
    rw [h1, hlen]
    simp
  · have h1 := TraceFrom.sizes_eq k solrURL world total b _ _ _ ht
    rw [h1, hlen]
    simp
  · intro j h
    have := (TraceFrom.result_eq k solrURL world total b _ _ _ ht j h).2
    simpa using this

/-! ## Orchestrator: claims -/

/-- C1: for every `total` and every `batchSize > 0`, the users loop and the
movies loop finish, and the sizes of the batches they produce sum to `total`,
are each between 1 and `batchSize`, and all but possibly the last equal
`batchSize`; for `total = 2500`, `batchSize = 1000` they are `[1000, 1000, 500]`. -/
theorem batch_sizes_partition (total b fuel : Nat) (solrURL : String)
    (ud : Nat → UserDraws) (md : Nat → MovieDraws)
    (uw : Nat → Exchange (List User)) (mw : Nat → Exchange (List Movie))
    (hb : 0 < b) (hfuel : total + b < fuel) :
    (∃ st, seedKind (userKind ud) solrURL uw total b fuel 0 = (st, .finished) ∧
      Partition total b (sizes st.calls) ∧
      (total = 2500 → b = 1000 → sizes st.calls = [1000, 1000, 500])) ∧
    (∃ st, seedKind (movieKind md) solrURL mw total b fuel 0 = (st, .finished) ∧
      Partition total b (sizes st.calls) ∧
      (total = 2500 → b = 1000 → sizes st.calls = [1000, 1000, 500])) := by
  constructor
  · obtain ⟨st, e, hp, hs⟩ := seedKind_partition (userKind ud) (userKind_total ud) solrURL uw
      total b fuel 0 hb hfuel
    refine ⟨st, e, hp, ?_⟩
    intro h1 h2
    subst h1 h2
    rw [hs]
    decide
  · obtain ⟨st, e, hp, hs⟩ := seedKind_partition (movieKind md) (movieKind_total md) solrURL mw
      total b fuel 0 hb hfuel
    refine ⟨st, e, hp, ?_⟩
    intro h1 h2
    subst h1 h2
    rw [hs]
    decide

/-- Witness of C1: 2500 users in batches of 1000. -/
theorem batch_sizes_partition_witness :
    ∃ st, seedKind (userKind fun _ => zeroUserDraws) "http://solr:8983"
        (fun _ => okExchange _) 2500 1000 3501 0 = (st, .finished) ∧
      Partition 2500 1000 (sizes st.calls) ∧ sizes st.calls = [1000, 1000, 500] := by
  obtain ⟨st, e, hp, hs⟩ := (batch_sizes_partition 2500 1000 3501 "http://solr:8983"
    (fun _ => zeroUserDraws) (fun _ => zeroMovieDraws) (fun _ => okExchange _)
    (fun _ => okExchange _) (by decide) (by decide)).1
  exact ⟨st, e, hp, hs rfl rfl⟩

/-- C2: for every `total`, every `batchSize > 0` and every sequence of upload
outcomes, the users loop and the movies loop finish having called the uploader
`ceil(total / batchSize)` times, the `j`-th call at offset `j * batchSize`, and
having logged one failure per failed call with that call's start offset; if
every upload fails there are as many failure logs as batches. -/
theorem uploads_once_per_batch (total b fuel : Nat) (solrURL : String)
    (ud : Nat → UserDraws) (md : Nat → MovieDraws)
    (uw : Nat → Exchange (List User)) (mw : Nat → Exchange (List Movie))
    (hb : 0 < b) (hfuel : total + b < fuel) :
    (∃ st, seedKind (userKind ud) solrURL uw total b fuel 0 = (st, .finished) ∧
      UploadsOncePerBatch (userKind ud) solrURL uw total b st) ∧
    (∃ st, seedKind (movieKind md) solrURL mw total b fuel 0 = (st, .finished) ∧
      UploadsOncePerBatch (movieKind md) solrURL mw total b st) :=
  ⟨seedKind_uploads (userKind ud) (userKind_total ud) solrURL uw total b fuel 0 hb hfuel,
   seedKind_uploads (movieKind md) (movieKind_total md) solrURL mw total b fuel 0 hb hfuel⟩

theorem http500_fails {δ : Type} (solrURL collection : String) (docs : δ) :
    (postToSolr solrURL collection docs (http500 δ)).err ≠ none := by
  simp [postToSolr, http500, clientDo, isRedirect]

/-- Witness of C2: 5 users and 5 movies in batches of 2 against an endpoint that
always answers HTTP 500 give, per kind, three calls, at offsets 0, 2, 4, and
three failure records carrying those offsets. -/
theorem uploads_once_per_batch_witness :
    (∃ st, seedKind (userKind fun _ => zeroUserDraws) "http://solr:8983"
        (fun _ => http500 _) 5 2 8 0 = (st, .finished) ∧
      UploadsOncePerBatch (userKind fun _ => zeroUserDraws) "http://solr:8983"
        (fun _ => http500 _) 5 2 st ∧
      (failureLogs st.logs).length = numBatches 5 2 ∧
      starts st.calls = [0, 2, 4] ∧
      failureLogs st.logs =
        [ { level := .error, msg := "failed to post user batch",
            attrs := [("error", .err "solr returned status 500 Internal Server Error"),
                      ("batch_start", .int 0)] },
          { level := .error, msg := "failed to post user batch",
            attrs := [("error", .err "solr returned status 500 Internal Server Error"),
                      ("batch_start", .int 2)] },
          { level := .error, msg := "failed to post user batch",
            attrs := [("error", .err "solr returned status 500 Internal Server Error"),
                      ("batch_start", .int 4)] } ]) ∧
    (∃ st, seedKind (movieKind fun _ => zeroMovieDraws) "http://solr:8983"
        (fun _ => http500 _) 5 2 8 0 = (st, .finished) ∧
      UploadsOncePerBatch (movieKind fun _ => zeroMovieDraws) "http://solr:8983"
        (fun _ => http500 _) 5 2 st ∧
      (failureLogs st.logs).length = numBatches 5 2 ∧
      starts st.calls = [0, 2, 4] ∧
      failureLogs st.logs =
        [ { level := .error, msg := "failed to post movie batch",
            attrs := [("error", .err "solr returned status 500 Internal Server Error"),
                      ("batch_start", .int 0)] },
          { level := .error, msg := "failed to post movie batch",
            attrs := [("error", .err "solr returned status 500 Internal Server Error"),
                      ("batch_start", .int 2)] },
          { level := .error, msg := "failed to post movie batch",
            attrs := [("error", .err "solr returned status 500 Internal Server Error"),
                      ("batch_start", .int 4)] } ]) := by
  obtain ⟨⟨su, eu, hu⟩, ⟨sm, em, hm⟩⟩ := uploads_once_per_batch 5 2 8
    "http://solr:8983" (fun _ => zeroUserDraws) (fun _ => zeroMovieDraws)
    (fun _ => http500 _) (fun _ => http500 _) (by decide) (by decide)
  have hsu : su = (seedKind (userKind fun _ => zeroUserDraws) "http://solr:8983"
      (fun _ => http500 _) 5 2 8 0).1 := by rw [eu]
  have hsm : sm = (seedKind (movieKind fun _ => zeroMovieDraws) "http://solr:8983"
      (fun _ => http500 _) 5 2 8 0).1 := by rw [em]
  refine ⟨⟨su, eu, hu, hu.2.2.2.2.2 (fun _ docs => http500_fails _ _ docs), ?_, ?_⟩,
    ⟨sm, em, hm, hm.2.2.2.2.2 (fun _ docs => http500_fails _ _ docs), ?_, ?_⟩⟩
  · rw [hsu]; decide
  · rw [hsu]; decide
  · rw [hsm]; decide
  · rw [hsm]; decide

/-- C10 (as stated, refuted): one user against an endpoint that always answers
HTTP 500.  Batch 0 has index a multiple of 10, so the claim asks for one
progress log; the loop emits none. -/
theorem progress_not_every_tenth :
    progressLogs (userKind fun _ => zeroUserDraws)
        (seedKind (userKind fun _ => zeroUserDraws) "http://solr:8983"
          (fun _ => http500 _) 1 1 3 0).1.logs
      ≠ progressEveryTenth (userKind fun _ => zeroUserDraws) 1 1 ∧
    progressLogs (userKind fun _ => zeroUserDraws)
        (seedKind (userKind fun _ => zeroUserDraws) "http://solr:8983"
          (fun _ => http500 _) 1 1 3 0).1.logs = [] ∧
    (seedKind (userKind fun _ => zeroUserDraws) "http://solr:8983"
          (fun _ => http500 _) 1 1 3 0).2 = .finished := by
  decide

/-- C10 (amended): for every `total`, every `batchSize > 0` and every sequence
of upload outcomes, the users loop and the movies loop finish having emitted a
progress log for exactly the batches whose zero-based index `j` is a multiple
of 10 and whose upload succeeded, each carrying offset `j * batchSize` and the
batch's size. -/
theorem progress_on_successful_tenth (total b fuel : Nat) (solrURL : String)
    (ud : Nat → UserDraws) (md : Nat → MovieDraws)
    (uw : Nat → Exchange (List User)) (mw : Nat → Exchange (List Movie))
    (hb : 0 < b) (hfuel : total + b < fuel) :
    (∃ st, seedKind (userKind ud) solrURL uw total b fuel 0 = (st, .finished) ∧
      ProgressOnSuccess (userKind ud) solrURL uw total b st) ∧
    (∃ st, seedKind (movieKind md) solrURL mw total b fuel 0 = (st, .finished) ∧
      ProgressOnSuccess (movieKind md) solrURL mw total b st) :=
  ⟨seedKind_progress (userKind ud) (userKind_total ud) solrURL uw total b fuel 0 hb hfuel
      (by show "finished seeding users" ≠ "seeded user batch"; decide),
   seedKind_progress (movieKind md) (movieKind_total md) solrURL mw total b fuel 0 hb hfuel
      (by show "finished seeding movies" ≠ "seeded movie batch"; decide)⟩

/-- Witness of the amended C10: 41 users and 41 movies in batches of 2, every
upload succeeding except the one of batch 10.  Batches 0, 10 and 20 have an
index that is a multiple of 10; progress is logged for batches 0 and 20 only,
with their offsets and sizes. -/
theorem progress_on_successful_tenth_witness :
    (∃ st, seedKind (userKind fun _ => zeroUserDraws) "http://solr:8983"
        (fun n => if n = 10 then http500 _ else okExchange _) 41 2 44 0 = (st, .finished) ∧
      ProgressOnSuccess (userKind fun _ => zeroUserDraws) "http://solr:8983"
        (fun n => if n = 10 then http500 _ else okExchange _) 41 2 st ∧
      progressLogs (userKind fun _ => zeroUserDraws) st.logs =
        [ { level := .info, msg := "seeded user batch",
            attrs := [("batch_start", .int 0), ("batch_size", .int 2)] },
          { level := .info, msg := "seeded user batch",
            attrs := [("batch_start", .int 40), ("batch_size", .int 1)] } ]) ∧
    (∃ st, seedKind (movieKind fun _ => zeroMovieDraws) "http://solr:8983"
        (fun n => if n = 10 then http500 _ else okExchange _) 41 2 44 0 = (st, .finished) ∧
      ProgressOnSuccess (movieKind fun _ => zeroMovieDraws) "http://solr:8983"
        (fun n => if n = 10 then http500 _ else okExchange _) 41 2 st ∧
      progressLogs (movieKind fun _ => zeroMovieDraws) st.logs =
        [ { level := .info, msg := "seeded movie batch",
            attrs := [("batch_start", .int 0), ("batch_size", .int 2)] },
          { level := .info, msg := "seeded movie batch",
            attrs := [("batch_start", .int 40), ("batch_size", .int 1)] } ]) := by
  obtain ⟨⟨su, eu, hu⟩, ⟨sm, em, hm⟩⟩ := progress_on_successful_tenth 41 2 44
    "http://solr:8983" (fun _ => zeroUserDraws) (fun _ => zeroMovieDraws)
    (fun n => if n = 10 then http500 _ else okExchange _)
    (fun n => if n = 10 then http500 _ else okExchange _) (by decide) (by decide)
  have hsu : su = (seedKind (userKind fun _ => zeroUserDraws) "http://solr:8983"
      (fun n => if n = 10 then http500 _ else okExchange _) 41 2 44 0).1 := by rw [eu]
  have hsm : sm = (seedKind (movieKind fun _ => zeroMovieDraws) "http://solr:8983"
      (fun n => if n = 10 then http500 _ else okExchange _) 41 2 44 0).1 := by rw [em]
  refine ⟨⟨su, eu, hu, ?_⟩, ⟨sm, em, hm, ?_⟩⟩
  · rw [hsu]; decide
  · rw [hsm]; decide

/-- C4: if `SOLR_MASTER_URL` is empty, `main` exits with status 1 and no
uploader call is made; if it is set, `main` exits with status 0 whatever the
upload outcomes are. -/
theorem main_exit_status (fuel : Nat) (w : World) :
    (w.solrMasterURL = "" →
      (main fuel w).exitStatus = some 1 ∧
      (main fuel w).userCalls = [] ∧ (main fuel w).movieCalls = []) ∧
    (w.solrMasterURL ≠ "" → 1001000 < fuel → (main fuel w).exitStatus = some 0) := by
  constructor
  · intro h
    simp [main, h, ProcessResult.userCalls, ProcessResult.movieCalls]
  · intro h hfuel
    have hf : totalUsers + batchSize < fuel := hfuel
    have hf' : totalMovies + batchSize < fuel := hfuel
    obtain ⟨su, eu, -⟩ := seedKind_run (userKind w.userDraws) (userKind_total _)
      w.solrMasterURL w.userPosts totalUsers batchSize fuel 0 (by decide) hf
    obtain ⟨sm, em, -⟩ := seedKind_run (movieKind w.movieDraws) (movieKind_total _)
      w.solrMasterURL w.moviePosts totalMovies batchSize fuel 0 (by decide) hf'
    simp [main, h, eu, em]

/-- Witness of C4: an empty URL, and a set URL with every upload failing. -/
theorem main_exit_status_witness :
    ((main 1001001 ⟨"", fun _ => zeroUserDraws, fun _ => zeroMovieDraws,
        fun _ => http500 _, fun _ => http500 _⟩).exitStatus = some 1 ∧
      (main 1001001 ⟨"", fun _ => zeroUserDraws, fun _ => zeroMovieDraws,
        fun _ => http500 _, fun _ => http500 _⟩).userCalls = [] ∧
      (main 1001001 ⟨"", fun _ => zeroUserDraws, fun _ => zeroMovieDraws,
        fun _ => http500 _, fun _ => http500 _⟩).movieCalls = []) ∧
    (main 1001001 ⟨"http://solr:8983", fun _ => zeroUserDraws, fun _ => zeroMovieDraws,
        fun _ => http500 _, fun _ => http500 _⟩).exitStatus = some 0 :=
  ⟨(main_exit_status 1001001 ⟨"", fun _ => zeroUserDraws, fun _ => zeroMovieDraws,
      fun _ => http500 _, fun _ => http500 _⟩).1 rfl,
   (main_exit_status 1001001 ⟨"http://solr:8983", fun _ => zeroUserDraws,
      fun _ => zeroMovieDraws, fun _ => http500 _, fun _ => http500 _⟩).2
      (by decide) (by decide)⟩

end SolrSeeder
